import Mathlib

/-!
Verification of the clickhouse-arrow client module
(`src/clickhouse_arrow/__init__.py`): the parameter-value serialization
protocol (`bind_param`), request construction (`create_post_body`,
`_execute`, `append_url`), settings merging (`_combine_settings`),
response status checking (`ensure_success_status`), and the streaming
resource lifecycle of `read_batches`.

Python runtime values that can be passed as query parameters are embedded
as the inductive `PyValue`, with one constructor per branch of the
`isinstance` dispatch in `bind_param`.  Python dictionaries are embedded
as association lists in iteration (insertion) order.
-/

namespace ClickhouseArrow

/-- A single-quote character, built by code point to keep literals readable. -/
def squote : String := String.singleton (Char.ofNat 39)

/-- Python values accepted by `bind_param`, one constructor per branch of its
`isinstance` dispatch.  `float` and `other` carry the text that Python
`str()` renders for them, since `bind_param` only ever calls `str` on such
values. -/
inductive PyValue where
  | null : PyValue
  | bool (b : Bool) : PyValue
  | int (n : Int) : PyValue
  | float (r : String) : PyValue
  | str (s : String) : PyValue
  | tuple (vs : List PyValue) : PyValue
  | dict (ps : List (PyValue × PyValue)) : PyValue
  | iterable (vs : List PyValue) : PyValue
  | other (r : String) : PyValue
deriving Repr

/-- Python `str()` of a scalar value, as `bind_param` produces for the
`(bool, int, float)` branch and the fallback branch. -/
def pyStr : PyValue → String
  | PyValue.bool b => if b then "True" else "False"
  | PyValue.int n => toString n
  | PyValue.float r => r
  | PyValue.other r => r
  | PyValue.null => "None"
  | PyValue.str s => s
  | PyValue.tuple _ => ""
  | PyValue.dict _ => ""
  | PyValue.iterable _ => ""

mutual

/-- Embedding of `bind_param(value, quote_strings=False)` from
`src/clickhouse_arrow/__init__.py`: recursive conversion of a parameter
value to ClickHouse literal text. -/
def bind_param : PyValue → Bool → String
  | PyValue.null, _ => "NULL"
  | PyValue.bool b, _ => if b then "True" else "False"
  | PyValue.int n, _ => toString n
  | PyValue.float r, _ => r
  | PyValue.str s, quote_strings =>
      if quote_strings then squote ++ s ++ squote else s
  | PyValue.tuple vs, _ => "(" ++ String.intercalate ", " (bindList vs) ++ ")"
  | PyValue.dict ps, _ =>
      "\x7b" ++ String.intercalate ", " (bindPairs ps) ++ "\x7d"
  | PyValue.iterable vs, _ => "[" ++ String.intercalate ", " (bindList vs) ++ "]"
  | PyValue.other r, _ => r

/-- The list comprehension `[bind_param(v, True) for v in value]`. -/
def bindList : List PyValue → List String
  | [] => []
  | v :: vs => bind_param v true :: bindList vs

/-- The generator `bind_param(k, True) + ":" + bind_param(v, True) for k, v in value.items()`. -/
def bindPairs : List (PyValue × PyValue) → List String
  | [] => []
  | (k, v) :: ps => (bind_param k true ++ ":" ++ bind_param v true) :: bindPairs ps

end

example : bind_param (PyValue.tuple [PyValue.int 1, PyValue.int 2, PyValue.int 3]) false
    = "(1, 2, 3)" := by decide

example : bind_param (PyValue.dict [(PyValue.str "a", PyValue.int 1)]) false
    = "\x7b" ++ squote ++ "a" ++ squote ++ ":1\x7d" := by decide

/-! ## Python dictionaries and the settings merge -/

/-- A Python `dict` with string keys, embedded as an association list in
iteration (insertion) order. -/
abbrev PyDict (α : Type) := List (String × α)

/-- Python `d[k]` probing: the value of the first entry with key `k`. -/
def listLookup {α : Type} (k : String) : PyDict α → Option α
  | [] => Option.none
  | (k₀, v₀) :: rest => if k₀ = k then some v₀ else listLookup k rest

/-- Python `k in d`. -/
def containsKey {α : Type} (k : String) (d : PyDict α) : Bool :=
  (listLookup k d).isSome

/-- Python dict merge `d | s` (PEP 584): keys of `d` in `d`'s order with the
value from `s` where the key collides, followed by the keys only in `s`, in
`s`'s order. -/
def dictUnion {α : Type} (d s : PyDict α) : PyDict α :=
  d.map (fun p =>
    match listLookup p.1 s with
    | some v => (p.1, v)
    | Option.none => p)
  ++ s.filter (fun p => !(containsKey p.1 d))

/-- Embedding of `Client._combine_settings` from
`src/clickhouse_arrow/__init__.py`: the `match (settings, self._default_settings)`
three-way branch.  The first argument is the client-level
`self._default_settings`; the second is the per-call `settings`. -/
def combine_settings {α : Type} (default_settings settings : Option (PyDict α)) :
    Option (PyDict α) :=
  match settings, default_settings with
  | Option.none, _ => default_settings
  | _, Option.none => settings
  | some s, some d => some (dictUnion d s)

example : combine_settings (some [("limit", "42")]) (some [("limit", "1")])
    = some [("limit", "1")] := by decide

example : combine_settings (some [("a", "1")]) (some [("b", "2")])
    = some [("a", "1"), ("b", "2")] := by decide

/-! ### Lookup lemmas for the merge -/

lemma listLookup_append {α : Type} (k : String) (l₁ l₂ : PyDict α) :
    listLookup k (l₁ ++ l₂)
      = ((listLookup k l₁).rec (listLookup k l₂) (fun v => some v)) := by
  induction l₁ with
  | nil => simp [listLookup]
  | cons p rest ih =>
      obtain ⟨k₀, v₀⟩ := p
      by_cases h : k₀ = k
      · simp [listLookup, h]
      · simp [listLookup, h, ih]

lemma listLookup_updateMap {α : Type} (k : String) (d s : PyDict α) :
    listLookup k (d.map (fun p =>
        match listLookup p.1 s with
        | some v => (p.1, v)
        | Option.none => p))
      = ((listLookup k d).rec Option.none
          (fun v => some (((listLookup k s).rec v (fun w => w)))) : Option α) := by
  induction d with
  | nil => simp [listLookup]
  | cons p rest ih =>
      obtain ⟨k₀, v₀⟩ := p
      by_cases h : k₀ = k
      · subst h
        cases hs : listLookup k₀ s <;> simp [listLookup, hs]
      · cases hs : listLookup k₀ s <;> simp [listLookup, h, hs, ih]

lemma listLookup_filterNew {α : Type} (k : String) (d s : PyDict α) :
    listLookup k (s.filter (fun p => !(containsKey p.1 d)))
      = if containsKey k d then Option.none else listLookup k s := by
  induction s with
  | nil => simp [listLookup]
  | cons p rest ih =>
      obtain ⟨k₀, v₀⟩ := p
      by_cases h : k₀ = k
      · subst h
        by_cases hd : containsKey k₀ d
        · simp [listLookup, hd, ih]
        · simp [listLookup, hd]
      · by_cases hd : containsKey k₀ d
        · simp [listLookup, hd, h, ih]
        · simp [listLookup, hd, h, ih]

/-- Merging Python dicts resolves every key to the per-call value when present
there, and to the default value otherwise. -/
lemma listLookup_dictUnion {α : Type} (k : String) (d s : PyDict α) :
    listLookup k (dictUnion d s) = ((listLookup k s).rec (listLookup k d) some) := by
  unfold dictUnion
  rw [listLookup_append, listLookup_updateMap, listLookup_filterNew]
  unfold containsKey
  cases hd : listLookup k d <;> cases hs : listLookup k s <;> simp [hd, hs]

lemma bindList_eq_map (vs : List PyValue) :
    bindList vs = vs.map (fun v => bind_param v true) := by
  induction vs with
  | nil => rfl
  | cons v rest ih => simp [bindList, ih]

lemma bindPairs_eq_map (ps : List (PyValue × PyValue)) :
    bindPairs ps = ps.map (fun p => bind_param p.1 true ++ ":" ++ bind_param p.2 true) := by
  induction ps with
  | nil => rfl
  | cons p rest ih =>
      obtain ⟨k, v⟩ := p
      simp [bindPairs, ih]

/-! ## Claim theorems for the parameter binder and the settings merge -/

/-- C1: for every string `s`, `bind_param(s, quote_strings)` returns `s`
verbatim when `quote_strings` is false and `s` wrapped in single quotes when
`quote_strings` is true; the outcome depends only on the flag, never on the
value of `s`. -/
theorem c1_bind_param_string_quoting (s : String) :
    bind_param (PyValue.str s) false = s
      ∧ bind_param (PyValue.str s) true = squote ++ s ++ squote := by
  constructor <;> rfl

/-- C2: for every boolean, integer or floating-point value and both values of
`quote_strings`, `bind_param` returns Python's `str()` rendering of the value
(for integers, the canonical decimal representation `toString n`), never
wrapped in quotes at any nesting depth. -/
theorem c2_bind_param_scalars_unquoted (q : Bool) :
    (∀ b : Bool, bind_param (PyValue.bool b) q = (if b then "True" else "False"))
      ∧ (∀ n : Int, bind_param (PyValue.int n) q = toString n)
      ∧ (∀ r : String, bind_param (PyValue.float r) q = r) := by
  refine ⟨fun b => ?_, fun n => ?_, fun r => ?_⟩ <;> simp [bind_param]

/-- C3: a tuple is bound by recursively binding each element with
`quote_strings=true`, joining with the separator `", "` and wrapping in
parentheses; the tuple `(1, 2, 3)` of integers yields exactly `"(1, 2, 3)"`,
and `None` binds to `"NULL"` at any depth. -/
theorem c3_bind_param_tuple (vs : List PyValue) (q q₁ q₂ : Bool) :
    bind_param (PyValue.tuple vs) q
        = "(" ++ String.intercalate ", " (vs.map (fun v => bind_param v true)) ++ ")"
      ∧ bind_param (PyValue.tuple [PyValue.int 1, PyValue.int 2, PyValue.int 3]) q₁
        = "(1, 2, 3)"
      ∧ bind_param PyValue.null q₂ = "NULL" := by
  refine ⟨?_, ?_, ?_⟩
  · simp [bind_param, bindList_eq_map]
  · cases q₁ <;> decide
  · cases q₂ <;> rfl

/-- C4: a mapping is bound by recursively binding each key and value with
`quote_strings=true`, rendering each pair as `key:value` with no space around
the colon, joining pairs with `", "` in iteration order, and wrapping in
braces; the mapping of string key "a" to integer 1 yields exactly the text
consisting of a brace, `'a'`, a colon, `1` and a closing brace. -/
theorem c4_bind_param_mapping (ps : List (PyValue × PyValue)) (q q₁ : Bool) :
    bind_param (PyValue.dict ps) q
        = "\x7b" ++ String.intercalate ", "
            (ps.map (fun p => bind_param p.1 true ++ ":" ++ bind_param p.2 true))
          ++ "\x7d"
      ∧ bind_param (PyValue.dict [(PyValue.str "a", PyValue.int 1)]) q₁
        = "\x7b" ++ squote ++ "a" ++ squote ++ ":1\x7d" := by
  refine ⟨?_, ?_⟩
  · simp [bind_param, bindPairs_eq_map]
  · cases q₁ <;> decide

/-- C5: the settings merge returns `None` for two absent sides, the present
side unmodified when only one side is supplied, and otherwise a dict covering
the union of both key sets in which the per-call value wins on every shared
key. -/
theorem c5_combine_settings_spec {α : Type} :
    (combine_settings (Option.none : Option (PyDict α)) Option.none = Option.none)
      ∧ (∀ s : PyDict α, combine_settings Option.none (some s) = some s)
      ∧ (∀ d : PyDict α, combine_settings (some d) Option.none = some d)
      ∧ (∀ (d s : PyDict α) (k : String), ∃ m : PyDict α,
          combine_settings (some d) (some s) = some m
            ∧ containsKey k m = (containsKey k s || containsKey k d)
            ∧ listLookup k m
                = Option.orElse (listLookup k s) (fun _ => listLookup k d)) := by
  refine ⟨rfl, fun s => rfl, fun d => rfl, fun d s k => ?_⟩
  refine ⟨dictUnion d s, rfl, ?_, ?_⟩
  · unfold containsKey
    rw [listLookup_dictUnion]
    cases listLookup k s <;> cases listLookup k d <;> simp
  · rw [listLookup_dictUnion]
    cases listLookup k s <;> simp [Option.orElse]

/-- C10: quoting a string never escapes any character: the result is exactly
quote, the string unchanged, quote; in particular the string `a'b` yields
`'a'b'`, where the embedded quote is the same character as the delimiters and
the total quote count is that of the input plus two. -/
theorem c10_bind_param_no_escaping (s : String) :
    bind_param (PyValue.str s) true = squote ++ s ++ squote
      ∧ (bind_param (PyValue.str s) true).data.count (Char.ofNat 39)
          = s.data.count (Char.ofNat 39) + 2
      ∧ bind_param (PyValue.str ("a" ++ squote ++ "b")) true
          = squote ++ "a" ++ squote ++ "b" ++ squote := by
  refine ⟨rfl, ?_, by decide⟩
  show (squote ++ s ++ squote).data.count (Char.ofNat 39)
    = s.data.count (Char.ofNat 39) + 2
  rw [String.data_append, String.data_append, List.count_append, List.count_append]
  simp [squote, String.singleton]
  omega

/-! ## Response status checking (`ensure_success_status`, `ClickhouseException`) -/

/-- An HTTP response as seen by `ensure_success_status`: a status code and the
body text (`str(response.data)`). -/
structure HTTPResponse where
  status : Nat
  data : String
deriving Repr, DecidableEq

/-- The one exception type the client defines.  `message` is the argument the
constructor passes to `Exception.__init__`. -/
structure ClickhouseException where
  status : Nat
  body : String
  message : String
deriving Repr, DecidableEq

/-- Embedding of `ClickhouseException.__init__`: stores the status and body and
builds the message containing the literal status code. -/
def mkClickhouseException (status : Nat) (body : String) : ClickhouseException :=
  { status := status
    body := body
    message := "Unexpected HTTP response status code: " ++ toString status ++ "." }

/-- Embedding of `ensure_success_status`: raise `ClickhouseException` when the
status is not 200, otherwise return normally. -/
def ensure_success_status (response : HTTPResponse) : Except ClickhouseException Unit :=
  if response.status ≠ 200 then
    Except.error (mkClickhouseException response.status response.data)
  else
    Except.ok ()

/-- C6: the client raises `ClickhouseException` exactly when the status is not
200; the exception carries the status and the body, its message contains the
literal status code, and a 200 status raises nothing. -/
theorem c6_ensure_success_status_spec (response : HTTPResponse) :
    (ensure_success_status response = Except.ok () ↔ response.status = 200)
      ∧ (response.status ≠ 200 →
          ∃ e : ClickhouseException,
            ensure_success_status response = Except.error e
              ∧ e.status = response.status
              ∧ e.body = response.data
              ∧ e.message = "Unexpected HTTP response status code: "
                  ++ toString response.status ++ ".") := by
  constructor
  · unfold ensure_success_status
    by_cases h : response.status = 200 <;> simp [h]
  · intro h
    refine ⟨mkClickhouseException response.status response.data, ?_, rfl, rfl, rfl⟩
    unfold ensure_success_status
    simp [h]

/-- C6 witness: a 500 response with body "err" raises the exception carrying
status 500, body "err" and the message naming 500. -/
theorem c6_ensure_success_status_spec_witness :
    ∃ e : ClickhouseException,
      ensure_success_status ⟨500, "err"⟩ = Except.error e
        ∧ e.status = 500 ∧ e.body = "err"
        ∧ e.message = "Unexpected HTTP response status code: " ++ toString 500 ++ "." :=
  (c6_ensure_success_status_spec ⟨500, "err"⟩).2 (by decide)

/-! ## `read_table` on an empty batch stream

The decoding of the Arrow stream and `pa.Table.from_batches` are performed by
the pyarrow collaborator, whose code is not part of this repository; its
behaviour on zero batches is modelled from the spec below. -/

/-- An Arrow schema, abstracted to its field list (name and type text). -/
structure Schema where
  fields : List (String × String)
deriving Repr, DecidableEq

/-- One record batch: its schema and its row count.  The client never inspects
the columnar payload, so rows are abstracted to a count. -/
structure RecordBatch where
  schema : Schema
  numRows : Nat
deriving Repr, DecidableEq

/-- A materialized table: a schema and the concatenated batches. -/
structure Table where
  schema : Schema
  batches : List RecordBatch
deriving Repr, DecidableEq

/-- Total number of rows of a table. -/
def Table.numRows (t : Table) : Nat :=
  (t.batches.map RecordBatch.numRows).sum

/-- The failure `pa.Table.from_batches` signals on zero batches and no schema
("Must pass schema, or at least one RecordBatch"). -/
inductive ArrowError where
  | cannotInferSchema : ArrowError
deriving Repr, DecidableEq

/-- Modelled from the spec: `pa.Table.from_batches(batches, schema)`, the codec
collaborator call in `Client.read_table` (not part of this repository).  Per
the spec, with a supplied schema an empty batch list still yields a
validly-typed empty table with exactly that schema; with no schema the schema
is inferred from the first batch, and zero batches fail with the
cannot-infer-schema condition. -/
def from_batches (batches : List RecordBatch) (schema : Option Schema) :
    Except ArrowError Table :=
  match schema with
  | some s => Except.ok ⟨s, batches⟩
  | Option.none =>
      match batches with
      | [] => Except.error ArrowError.cannotInferSchema
      | b :: _ => Except.ok ⟨b.schema, batches⟩

/-- Embedding of `Client.read_table`: drain `read_batches` (which yields
exactly the decoded batch sequence of the response stream) and concatenate via
`pa.Table.from_batches` with the optional caller-supplied schema. -/
def read_table (streamBatches : List RecordBatch) (schema : Option Schema) :
    Except ArrowError Table :=
  from_batches streamBatches schema

/-- C7: on a stream yielding zero batches, `read_table` fails with the
cannot-infer-schema condition when no schema is supplied, and with a supplied
schema returns a zero-row table whose schema is exactly the supplied one. -/
theorem c7_read_table_empty_stream (schema : Schema) :
    read_table [] Option.none = Except.error ArrowError.cannotInferSchema
      ∧ (∃ t : Table, read_table [] (some schema) = Except.ok t
          ∧ t.schema = schema ∧ t.numRows = 0) := by
  exact ⟨rfl, ⟨schema, []⟩, rfl, rfl, rfl⟩

/-! ## Request construction (`create_post_body`, `append_url`, `Client._execute`)

`urllib.parse.urlencode` percent-encodes each key and value with
`quote_plus`: UTF-8 bytes, unreserved bytes kept, space as `+`, all other
bytes as `%XX` with uppercase hex. -/

/-- Uppercase hexadecimal digit for a nibble. -/
def hexDigit (n : Nat) : Char :=
  if n < 10 then Char.ofNat (48 + n) else Char.ofNat (55 + n)

/-- Bytes `quote_plus` leaves unencoded: ASCII letters, digits, `_`, `.`, `-`, `~`. -/
def isSafeByte (b : Nat) : Bool :=
  (65 ≤ b && b ≤ 90) || (97 ≤ b && b ≤ 122) || (48 ≤ b && b ≤ 57)
    || b == 95 || b == 46 || b == 45 || b == 126

/-- Encode one UTF-8 byte the way `quote_plus` does. -/
def encodeByte (b : Nat) : String :=
  if b == 32 then "+"
  else if isSafeByte b then String.singleton (Char.ofNat b)
  else "%" ++ String.singleton (hexDigit (b / 16)) ++ String.singleton (hexDigit (b % 16))

/-- UTF-8 encoding of one code point, as a list of byte values. -/
def utf8Bytes (c : Char) : List Nat :=
  let n := c.toNat
  if n < 128 then [n]
  else if n < 2048 then [192 + n / 64, 128 + n % 64]
  else if n < 65536 then [224 + n / 4096, 128 + (n / 64) % 64, 128 + n % 64]
  else [240 + n / 262144, 128 + (n / 4096) % 64, 128 + (n / 64) % 64, 128 + n % 64]

/-- `urllib.parse.quote_plus` applied to a string. -/
def quote_plus (s : String) : String :=
  String.join ((s.data.flatMap utf8Bytes).map encodeByte)

/-- `urllib.parse.urlencode`: `k=v` pairs joined with `&`, each component
percent-encoded. -/
def urlencode (query : PyDict String) : String :=
  String.intercalate "&" (query.map (fun p => quote_plus p.1 ++ "=" ++ quote_plus p.2))

/-- Embedding of `append_url`: the base URL, `?`, and the urlencoded query. -/
def append_url (url : String) (query : PyDict String) : String :=
  url ++ "?" ++ urlencode query

example : urlencode [("limit", "1"), ("max threads", "2")]
    = "limit=1&max+threads=2" := by decide

/-- Embedding of `create_post_body`: a `query` field, then one `param_<name>`
field per parameter bound with `bind_param(v)` (that is, `quote_strings=False`).
`if params:` skips the update for an absent or empty mapping. -/
def create_post_body (query : String) (params : Option (PyDict PyValue)) :
    PyDict String :=
  let body : PyDict String := [("query", query)]
  match params with
  | Option.none => body
  | some ps =>
      if ps.isEmpty then body
      else body ++ ps.map (fun p => ("param_" ++ p.1, bind_param p.2 false))

/-- The construction-time state of `Client` relevant to request building. -/
structure ClientState where
  url : String
  user : String
  password : String
  default_settings : Option (PyDict String)

/-- The request `Client._execute` hands to the pool: the target URL and the
multipart form fields (the multipart encoding itself is performed by the
urllib3 collaborator). -/
structure PreparedRequest where
  url : String
  fields : PyDict String
deriving Repr, DecidableEq

/-- Embedding of the request-building part of `Client._execute`: append the
format directive to the query when given, build the form fields, merge the
settings and append them to the URL when the merge is non-empty (`if settings`
is false for both `None` and an empty dict). -/
def execute_request (c : ClientState) (query : String)
    (params : Option (PyDict PyValue)) (settings : Option (PyDict String))
    (format? : Option String) : PreparedRequest :=
  let query := match format? with
    | some f => query ++ " FORMAT " ++ f
    | Option.none => query
  let fields := create_post_body query params
  let combined := combine_settings c.default_settings settings
  let url := match combined with
    | some s => if s.isEmpty then c.url else append_url c.url s
    | Option.none => c.url
  ⟨url, fields⟩

/-- C8: the form fields are exactly a `query` field equal to the query text
(with " FORMAT ArrowStream" appended for streaming reads) followed by one
`param_<name>` field per parameter holding `bind_param(value, False)`; the
merged settings, when present and non-empty, are appended to the URL as
urlencoded key/value pairs, and otherwise the URL is the base URL. -/
theorem c8_request_construction (c : ClientState) (q : String) (ps : PyDict PyValue)
    (settings : Option (PyDict String)) :
    (execute_request c q (some ps) settings (some "ArrowStream")).fields
        = ("query", q ++ " FORMAT ArrowStream")
            :: ps.map (fun p => ("param_" ++ p.1, bind_param p.2 false))
      ∧ (execute_request c q (some ps) settings Option.none).fields
        = ("query", q) :: ps.map (fun p => ("param_" ++ p.1, bind_param p.2 false))
      ∧ (∀ (format? : Option String) (s : PyDict String),
          combine_settings c.default_settings settings = some s → s ≠ [] →
            (execute_request c q (some ps) settings format?).url
              = c.url ++ "?" ++ urlencode s)
      ∧ (∀ format? : Option String,
          combine_settings c.default_settings settings = Option.none →
            (execute_request c q (some ps) settings format?).url = c.url) := by
  refine ⟨?_, ?_, ?_, ?_⟩
  · have h : (" FORMAT " ++ "ArrowStream" : String) = " FORMAT ArrowStream" := rfl
    cases ps <;> simp [execute_request, create_post_body, String.append_assoc, h]
  · cases ps <;> simp [execute_request, create_post_body]
  · intro format? s hs hne
    have : s.isEmpty = false := by
      cases s with
      | nil => exact absurd rfl hne
      | cons p rest => rfl
    simp [execute_request, hs, this, append_url]
  · intro format? hs
    simp [execute_request, hs]

/-- C8 witness: with default settings `limit=42`, per-call settings `limit=1`
and one integer parameter, the streaming request posts to the base URL with
`?limit=1` appended. -/
theorem c8_request_construction_witness :
    (execute_request ⟨"http://localhost:8123/", "default", "", some [("limit", "42")]⟩
        "select 1" (some [("i", PyValue.int 10)]) (some [("limit", "1")])
        (some "ArrowStream")).url
      = "http://localhost:8123/" ++ "?" ++ urlencode [("limit", "1")] :=
  (c8_request_construction
      ⟨"http://localhost:8123/", "default", "", some [("limit", "42")]⟩
      "select 1" [("i", PyValue.int 10)] (some [("limit", "1")])).2.2.1
    (some "ArrowStream") [("limit", "1")] (by decide) (by decide)

/-! ## Resource lifecycle of `Client.read_batches`

`Client.open_stream` first runs `self._execute(..., format_="ArrowStream")`,
which opens the HTTP response with `preload_content=False`, and then calls
`pa.ipc.open_stream(response)`, which eagerly reads the stream header and
raises on a malformed stream.  `Client.read_batches` wraps only the returned
reader in a `with` statement:

```python
with self.open_stream(query, params, settings) as reader:
    try:
        while True:
            yield reader.read_next_batch()
    except StopIteration:
        pass
```

The model below tracks which resources are open on each exit path.  It is
deliberately generous to the code on the one point the source does not
decide: it assumes (modelled from the spec's scoped-acquisition requirement)
that closing the pyarrow reader also releases the HTTP response it wraps. -/

/-- Which transport/codec resources are still open. -/
structure StreamState where
  responseOpen : Bool
  readerOpen : Bool
deriving Repr, DecidableEq

/-- The four ways control can leave `read_batches`: normal exhaustion of the
stream, abandonment by the consumer (generator close), a decode error while
reading a batch, and a decode error raised by `pa.ipc.open_stream` itself. -/
inductive ReadExit where
  | exhausted : ReadExit
  | consumerAbandoned : ReadExit
  | decodeErrorMidStream : ReadExit
  | decodeErrorAtOpen : ReadExit
deriving Repr, DecidableEq

/-- Resource state after `read_batches` terminates via the given exit path,
following the source control flow.  `open_stream` acquires the HTTP response
before any context manager exists; the `with` covers only the reader returned
by `pa.ipc.open_stream`.  When `pa.ipc.open_stream` raises (the codec
collaborator propagates decode faults unchanged and, modelled from the spec,
owns no transport resource), the exception leaves `open_stream` and
`read_batches` before the `with` block is entered, so no release code runs.
On the other three exits the `with` statement runs `reader.__exit__`, closing
the reader and (generously, see above) the wrapped response. -/
def read_batches_run : ReadExit → StreamState
  | ReadExit.decodeErrorAtOpen => ⟨true, false⟩
  | ReadExit.exhausted => ⟨false, false⟩
  | ReadExit.consumerAbandoned => ⟨false, false⟩
  | ReadExit.decodeErrorMidStream => ⟨false, false⟩

/-- C9: evaluation of the exit paths of `read_batches`.  On normal exhaustion,
consumer abandonment and a mid-stream decode error the response is released,
but a decode error raised while opening the stream leaves the HTTP response
open: the claim's "every exit path, including a decode error while opening
the stream" is violated by the code on that path. -/
theorem c9_read_batches_leak_on_open_error :
    (read_batches_run ReadExit.decodeErrorAtOpen).responseOpen = true
      ∧ (read_batches_run ReadExit.exhausted).responseOpen = false
      ∧ (read_batches_run ReadExit.consumerAbandoned).responseOpen = false
      ∧ (read_batches_run ReadExit.decodeErrorMidStream).responseOpen = false := by
  exact ⟨rfl, rfl, rfl, rfl⟩

end ClickhouseArrow
